import Mathlib

/-!
# Verification of the agentic checkout flow

Shallow embedding of the checkout-session state machine of the
`agentic-payments-hackathon-example-repo` repository (the ACP example app:
create / update / complete checkout-session routes, the SharedPaymentToken
creation route, and the agentic tool-calling loop controller), together with
theorems settling the specification claims about it.

Conventions of the embedding:
- Money amounts are exact integers in minor currency units (`Int`), as the
  code works in cents.  `Math.round(a / b)` on nonnegative JS numbers is
  embedded as `jsRound a b = ⌊(2a + b) / 2b⌋` (round half toward +∞), and the
  fixed tax rate `0.0875` as the exact rational `875 / 10000`.
- Optional JS fields are `Option`; JS truthiness on optional strings
  (`if (x)` where `x` is a string) is `truthyStr` (absent or `""` is falsy),
  and truthiness on optional objects is `Option.isSome`.
- The keyed session store (a JSON file holding a `Map`) is modelled
  extensionally as an association list with `storeGet`/`storeSet` giving the
  `Map.get`/`Map.set` semantics the routes rely on.
- Each HTTP handler becomes a pure function returning `Except`: a thrown
  `Error` becomes `.error e` for an error datatype whose constructors mirror
  the thrown messages.  On `.error` the handler has not written the store, so
  the caller's store is unchanged; the new store is returned only on `.ok`.
- External collaborators (the Stripe payment API, the SharedPaymentToken API,
  the language model) are parameters: their responses are inputs to the
  embedded functions, exactly where the code consumes a `fetch` response.
-/

namespace ACP

/-- The `Math.round(a / b)` for JS numbers with `a ≥ 0`, `b > 0`, in exact integer
arithmetic: round half toward +∞, i.e. `⌊(2a + b) / (2b)⌋`. -/
def jsRound (a b : Int) : Int := Int.fdiv (2 * a + b) (2 * b)

/-- JS truthiness of an optional string field: `undefined` and `""` are falsy. -/
def truthyStr : Option String → Bool
  | some s => s != ""
  | none => false

/-! ## Data model (`lib/types/checkout.ts`, `lib/types/product.ts`,
`lib/types/order.ts`) -/

/-- The `Buyer` (`lib/types/checkout.ts`): all fields optional. -/
structure Buyer where
  first_name : Option String := none
  last_name : Option String := none
  email : Option String := none
  phone_number : Option String := none
deriving Repr, DecidableEq

/-- The `FulfillmentAddress` (`lib/types/checkout.ts`). -/
structure FulfillmentAddress where
  name : String
  line_one : String
  line_two : Option String := none
  city : String
  state : String
  country : String
  postal_code : String
deriving Repr, DecidableEq

/-- The `CartItem` (`lib/types/checkout.ts`): `{id, quantity}`. -/
structure CartItem where
  id : String
  quantity : Int
deriving Repr, DecidableEq

/-- The `LineItem` (`lib/types/checkout.ts`). -/
structure LineItem where
  id : String
  item : CartItem
  base_amount : Int
  discount : Int
  total : Int
  subtotal : Int
  tax : Int
deriving Repr, DecidableEq

/-- The `FulfillmentOption` (`lib/types/checkout.ts`): a shipping method. -/
structure FulfillmentOption where
  id : String
  name : String
  amount : Int
  description : Option String := none
deriving Repr, DecidableEq

/-- The `TotalItem` (`lib/types/checkout.ts`): one labeled entry of `totals`. -/
structure TotalItem where
  label : String
  amount : Int
deriving Repr, DecidableEq

/-- The `CheckoutStatus` (`lib/types/checkout.ts`). -/
inductive CheckoutStatus where
  | not_ready_for_payment
  | ready_for_payment
  | completed
  | canceled
  | in_progress
deriving Repr, DecidableEq

/-- The `PaymentProvider` (`lib/types/checkout.ts`). -/
structure PaymentProvider where
  provider : String
  supported_payment_methods : List String
deriving Repr, DecidableEq

/-- The `CheckoutSession` (`lib/types/checkout.ts`): the central entity. -/
structure CheckoutSession where
  id : String
  buyer : Option Buyer := none
  payment_provider : Option PaymentProvider := none
  status : CheckoutStatus
  currency : String
  line_items : List LineItem
  fulfillment_address : Option FulfillmentAddress := none
  fulfillment_options : List FulfillmentOption
  fulfillment_option_id : Option String := none
  totals : List TotalItem
  messages : List String := []
  links : List String := []
deriving Repr, DecidableEq

/-- The `Product` (`lib/types/product.ts`): a catalog entry. -/
structure Product where
  id : String
  name : String
  description : String
  price : Int
  currency : String
  image_url : Option String := none
  category : Option String := none
deriving Repr, DecidableEq

/-- The `Order` (`lib/types/order.ts`): created once per completed session. -/
structure Order where
  id : String
  checkout_id : String
  payment_intent_id : String
  status : String
  total_amount : Int
  currency : String
  created_at : String
deriving Repr, DecidableEq

/-! ## Session store

The routes read a `Map<string, CheckoutSession>` from a JSON file, mutate it
with `get`/`set`, and write it back.  The store is embedded extensionally as
an association list with `Map` get/set semantics. -/

/-- The keyed session store. -/
def Store : Type := List (String × CheckoutSession)

/-- The `sessions.get(id)`. -/
def storeGet (store : Store) (key : String) : Option CheckoutSession :=
  (List.find? (fun e => e.1 == key) store).map (·.2)

/-- The `sessions.set(id, session)`: extensionally, the entry for `key` now maps
to `v` and every other entry is unchanged. -/
def storeSet (store : Store) (key : String) (v : CheckoutSession) : Store :=
  (key, v) :: List.filter (fun e => e.1 != key) store

/-! ## Totals computation

`calculateTotals` is the create-route variant
(`app/api/acp/checkout_sessions/route.ts`), `recalculateTotals` the
update-route variant (`app/api/acp/checkout_sessions/[id]/route.ts`). -/

/-- The `TAX_RATE = 0.0875`; `calculateTax(subtotal) = Math.round(subtotal * TAX_RATE)`,
embedded with the exact rational `875 / 10000`. -/
def calculateTax (subtotal : Int) : Int := jsRound (subtotal * 875) 10000

/-- The `totals.find((t) => t.label === label)?.amount || 0`: the amount of the
labeled entry, defaulting to `0` (for an amount of `0` the JS `|| 0` also
yields `0`, so `getD 0` is exact). -/
def totalsAmount (totals : List TotalItem) (label : String) : Int :=
  ((List.find? (fun t => t.label == label) totals).map (·.amount)).getD 0

/-- The `calculateTotals(lineItems, shippingAmount, taxAmount)` from the create
route: subtotal is `reduce((sum, item) => sum + item.subtotal, 0)`. -/
def calculateTotals (lineItems : List LineItem) (shippingAmount taxAmount : Int) :
    List TotalItem :=
  let subtotal := List.foldl (fun sum item => sum + item.subtotal) 0 lineItems
  let total := subtotal + shippingAmount + taxAmount
  [⟨"Subtotal", subtotal⟩, ⟨"Shipping", shippingAmount⟩, ⟨"Tax", taxAmount⟩,
    ⟨"Total", total⟩]

/-- The `recalculateTotals(checkout)` from the update route: shipping is the
looked-up option amount only when `fulfillment_option_id` is truthy (an
unknown id finds nothing and `?.amount || 0` yields `0`); tax is computed
only when an address is present. -/
def recalculateTotals (checkout : CheckoutSession) : List TotalItem :=
  let subtotal := List.foldl (fun sum item => sum + item.subtotal) 0 checkout.line_items
  let shippingAmount : Int :=
    if truthyStr checkout.fulfillment_option_id then
      ((List.find? (fun opt => opt.id == checkout.fulfillment_option_id.getD "")
          checkout.fulfillment_options).map (·.amount)).getD 0
    else 0
  let taxAmount := if checkout.fulfillment_address.isSome then calculateTax subtotal else 0
  let total := subtotal + shippingAmount + taxAmount
  [⟨"Subtotal", subtotal⟩, ⟨"Shipping", shippingAmount⟩, ⟨"Tax", taxAmount⟩,
    ⟨"Total", total⟩]

/-! ## Create checkout (`app/api/acp/checkout_sessions/route.ts`) -/

/-- The `CreateCheckoutRequest` (`lib/types/checkout.ts`). -/
structure CreateCheckoutRequest where
  items : List CartItem
  buyer : Option Buyer := none
  fulfillment_address : Option FulfillmentAddress := none
deriving Repr, DecidableEq

/-- Errors thrown by the create route. -/
inductive CreateError where
  | itemsRequired
  | productNotFound (id : String)
deriving Repr, DecidableEq

/-- The `DEFAULT_CURRENCY = 'usd'`. -/
def DEFAULT_CURRENCY : String := "usd"

/-- The static `FULFILLMENT_OPTIONS` shipping catalog of the create route. -/
def FULFILLMENT_OPTIONS : List FulfillmentOption :=
  [⟨"standard", "Standard Shipping", 500, some "5-7 business days"⟩,
   ⟨"express", "Express Shipping", 1500, some "2-3 business days"⟩,
   ⟨"overnight", "Overnight Shipping", 2500, some "Next business day"⟩]

/-- The `calculateLineItems(items)`: `items.map` with a throw on the first item
whose `product_id` is absent from the catalog. -/
def calculateLineItems (products : List Product) :
    List CartItem → Except CreateError (List LineItem)
  | [] => .ok []
  | item :: rest =>
    match List.find? (fun p => p.id == item.id) products with
    | none => .error (.productNotFound item.id)
    | some product =>
      let baseAmount := product.price * item.quantity
      let discount : Int := 0
      let subtotal := baseAmount - discount
      let tax : Int := 0
      match calculateLineItems products rest with
      | .error e => .error e
      | .ok others =>
        .ok ({ id := item.id, item := item, base_amount := baseAmount,
               discount := discount, total := subtotal + tax,
               subtotal := subtotal, tax := tax } :: others)

/-- The create-route `POST` handler.  `products` is the static catalog
(`data/products.json`), `newId` the generated checkout id.  On `.error` the
store has not been written. -/
def createCheckout (products : List Product) (store : Store)
    (body : CreateCheckoutRequest) (newId : String) :
    Except CreateError (Store × CheckoutSession) :=
  if body.items.isEmpty then .error .itemsRequired
  else
    match calculateLineItems products body.items with
    | .error e => .error e
    | .ok lineItems =>
      let shippingAmount : Int := 0
      let taxAmount : Int := 0
      let totals := calculateTotals lineItems shippingAmount taxAmount
      let checkout : CheckoutSession :=
        { id := newId
          buyer := body.buyer
          payment_provider := some ⟨"stripe", ["card"]⟩
          -- source: `body.fulfillment_address ? 'not_ready_for_payment'
          --          : 'not_ready_for_payment'` (both branches identical)
          status := .not_ready_for_payment
          currency := DEFAULT_CURRENCY
          line_items := lineItems
          fulfillment_address := body.fulfillment_address
          fulfillment_options := FULFILLMENT_OPTIONS
          fulfillment_option_id := none
          totals := totals }
      .ok (storeSet store newId checkout, checkout)

/-! ## Update checkout (`app/api/acp/checkout_sessions/[id]/route.ts`) -/

/-- The `UpdateCheckoutRequest` (`lib/types/checkout.ts`). -/
structure UpdateCheckoutRequest where
  buyer : Option Buyer := none
  fulfillment_address : Option FulfillmentAddress := none
  fulfillment_option_id : Option String := none
deriving Repr, DecidableEq

/-- Error thrown by the update route. -/
inductive UpdateError where
  | sessionNotFound (id : String)
deriving Repr, DecidableEq

/-- The `{...checkout.buyer, ...body.buyer}`: the body's present fields override
the session's. -/
def mergeBuyer (old nw : Buyer) : Buyer :=
  { first_name := nw.first_name.orElse fun _ => old.first_name
    last_name := nw.last_name.orElse fun _ => old.last_name
    email := nw.email.orElse fun _ => old.email
    phone_number := nw.phone_number.orElse fun _ => old.phone_number }

/-- The three guarded field updates of the update route (buyer merge, address
replace, option replace), before totals are recalculated. -/
def applyUpdates (checkout : CheckoutSession) (body : UpdateCheckoutRequest) :
    CheckoutSession :=
  let c1 :=
    match body.buyer with
    | some nb => { checkout with buyer := some (mergeBuyer (checkout.buyer.getD {}) nb) }
    | none => checkout
  let c2 :=
    match body.fulfillment_address with
    | some addr => { c1 with fulfillment_address := some addr }
    | none => c1
  if truthyStr body.fulfillment_option_id then
    { c2 with fulfillment_option_id := body.fulfillment_option_id }
  else c2

/-- The `checkout.line_items.map((item, index) => ...)`: distribute `taxAmount`
across the items, `taxPerItem = Math.round(taxAmount / N)` to each item and
the remainder `taxAmount - taxPerItem * (N - 1)` to the last; every item's
`total` becomes `item.subtotal + taxPerItem`.  The JS indexed `map` is the
index-carrying recursion `distributeTaxGo`. -/
def distributeTaxGo (n : Nat) (taxAmount taxPerItem : Int) :
    Nat → List LineItem → List LineItem
  | _, [] => []
  | i, item :: rest =>
    { item with
      tax := if (i : Int) = (n : Int) - 1 then
          taxAmount - taxPerItem * ((n : Int) - 1)
        else taxPerItem
      total := item.subtotal + taxPerItem } ::
      distributeTaxGo n taxAmount taxPerItem (i + 1) rest

/-- Tax distribution over the whole line-item list, with
`taxPerItem = Math.round(taxAmount / line_items.length)`. -/
def distributeTax (items : List LineItem) (taxAmount : Int) : List LineItem :=
  distributeTaxGo items.length taxAmount (jsRound taxAmount items.length) 0 items

/-- The pure session transformation of the update-route `POST` handler, after
the session has been found: merge fields, recalculate totals, redistribute
tax over the line items, and promote the status to `ready_for_payment` when
both address and option are (truthily) present. -/
def updateSession (checkout : CheckoutSession) (body : UpdateCheckoutRequest) :
    CheckoutSession :=
  let c := applyUpdates checkout body
  let totals := recalculateTotals c
  let taxAmount := totalsAmount totals "Tax"
  let newItems := distributeTax c.line_items taxAmount
  let c' := { c with totals := totals, line_items := newItems }
  if c'.fulfillment_address.isSome && truthyStr c'.fulfillment_option_id then
    { c' with status := .ready_for_payment }
  else c'

/-- The update-route `POST` handler: the session must exist; the updated
session is persisted.  On `.error` the store has not been written. -/
def updateRoute (store : Store) (cid : String) (body : UpdateCheckoutRequest) :
    Except UpdateError (Store × CheckoutSession) :=
  match storeGet store cid with
  | none => .error (.sessionNotFound cid)
  | some checkout =>
    let updated := updateSession checkout body
    .ok (storeSet store cid updated, updated)

/-! ## Complete checkout
(`app/api/acp/checkout_sessions/[id]/complete/route.ts`)

The Stripe PaymentIntent call is a collaborator: the handler issues a charge
for the session's `Total` amount in the session's currency with the supplied
SharedPaymentToken, and consumes the response.  `pay amount currency token`
is that response.  (The `STRIPE_SECRET_KEY` environment check of the source
is deployment configuration, folded into the collaborator.) -/

/-- Outcome of the Stripe `payment_intents` call consumed by the complete
route: a non-2xx response body, or a PaymentIntent with its `status`/`id`. -/
inductive PaymentOutcome where
  | httpError (body : String)
  | intent (status : String) (id : String)
deriving Repr, DecidableEq

/-- Errors thrown by the complete route, mirroring its thrown messages. -/
inductive CompleteError where
  | sptRequired
  | sessionNotFound (id : String)
  | invalidState (status : CheckoutStatus) (missing : List String)
  | totalNotFound
  | stripeFailed (msg : String)
  | paymentFailed (status : String)
deriving Repr, DecidableEq

/-- The `missingItems` list built by the complete route's not-ready branch:
`'shipping address'` when the address is falsy, `'shipping option'` when the
option id is falsy. -/
def missingItems (checkout : CheckoutSession) : List String :=
  (if checkout.fulfillment_address.isSome then [] else ["shipping address"]) ++
    (if truthyStr checkout.fulfillment_option_id then [] else ["shipping option"])

/-- The `createOrder(checkoutId, paymentIntentId, amount, currency)`; the
generated id and timestamp are parameters. -/
def createOrder (checkoutId paymentIntentId : String) (amount : Int)
    (currency : String) (orderId createdAt : String) : Order :=
  { id := orderId
    checkout_id := checkoutId
    payment_intent_id := paymentIntentId
    status := "completed"
    total_amount := amount
    currency := currency
    created_at := createdAt }

/-- The complete-route `POST` handler.  Source order: token check, session
lookup, status check (with missing-precondition message), `Total` lookup
(`!totalAmount` also rejects a zero total), Stripe charge for the session
total in the session currency, `status === 'succeeded'` check, then order
creation and the `completed` status write.  On `.error` the store has not
been written. -/
def completeCheckout (store : Store) (cid : String) (spt_token : Option String)
    (pay : Int → String → String → PaymentOutcome)
    (orderId createdAt : String) :
    Except CompleteError (Store × CheckoutSession × Order) :=
  if ¬ truthyStr spt_token then .error .sptRequired
  else
    match storeGet store cid with
    | none => .error (.sessionNotFound cid)
    | some checkout =>
      if checkout.status = .ready_for_payment then
        match (List.find? (fun t => t.label == "Total") checkout.totals).map (·.amount) with
        | none => .error .totalNotFound
        | some totalAmount =>
          if totalAmount = 0 then .error .totalNotFound
          else
            match pay totalAmount checkout.currency (spt_token.getD "") with
            | .httpError msg => .error (.stripeFailed msg)
            | .intent piStatus piId =>
              if piStatus = "succeeded" then
                let order := createOrder cid piId totalAmount checkout.currency
                  orderId createdAt
                let completed := { checkout with status := CheckoutStatus.completed }
                .ok (storeSet store cid completed, completed, order)
              else .error (.paymentFailed piStatus)
      else .error (.invalidState checkout.status (missingItems checkout))

/-! ## SharedPaymentToken creation
(`app/api/payment/create-payment-intent/route.ts`, the delegated-payment
route): the client-side confirmed `amount`/`currency` enter the flow here.
The Stripe `shared_payment/issued_tokens` call is the `spt` collaborator. -/

/-- The `CreateSPTRequest` (`lib/types/payment.ts`). -/
structure CreateSPTRequest where
  payment_method_id : Option String := none
  checkout_id : Option String := none
  amount : Option Int := none
  currency : Option String := none
deriving Repr, DecidableEq

/-- Outcome of the Stripe SPT-issuing call. -/
inductive SPTOutcome where
  | issued (tokenId : String)
  | httpError (msg : String)
deriving Repr, DecidableEq

/-- Errors thrown by the SPT-creation route. -/
inductive SPTError where
  | paymentMethodRequired
  | checkoutIdRequired
  | invalidAmount
  | currencyRequired
  | sessionNotFound (id : String)
  | amountMismatch (expected : Option Int) (got : Int)
  | stripeFailed (msg : String)
deriving Repr, DecidableEq

/-- The SPT-creation `POST` handler: field checks (`!body.amount ||
body.amount <= 0` rejects an absent, zero, or negative amount), session
lookup, and the amount reconciliation `checkoutTotal !== body.amount`
(throwing `Amount mismatch. Expected ..., got ...`).  No comparison is made
between `body.currency` and the session's currency.  The route never writes
the session store. -/
def createSPT (store : Store) (body : CreateSPTRequest) (spt : SPTOutcome) :
    Except SPTError String :=
  if ¬ truthyStr body.payment_method_id then .error .paymentMethodRequired
  else if ¬ truthyStr body.checkout_id then .error .checkoutIdRequired
  else
    match body.amount with
    | none => .error .invalidAmount
    | some amount =>
      if amount ≤ 0 then .error .invalidAmount
      else if ¬ truthyStr body.currency then .error .currencyRequired
      else
        match storeGet store (body.checkout_id.getD "") with
        | none => .error (.sessionNotFound (body.checkout_id.getD ""))
        | some checkout =>
          let checkoutTotal :=
            (List.find? (fun t => t.label == "Total") checkout.totals).map (·.amount)
          if checkoutTotal ≠ some amount then
            .error (.amountMismatch checkoutTotal amount)
          else
            match spt with
            | .httpError msg => .error (.stripeFailed msg)
            | .issued tokenId => .ok tokenId

/-! ## Agentic loop controller (`app/api/chat-stream/route.ts`)

The loop repeatedly calls the model (`callDat1`) and dispatches tool calls
until a non-empty plain-text turn arrives, bounded by `MAX_ITERATIONS = 10`;
exhausting the bound throws `Maximum iterations reached`, which the handler
surfaces to the caller as a fatal error response.  The model is a
collaborator: `turns i` is the assistant message of the `i`-th call.  Tool
results are re-injected into the message list but never alter control flow
(a failing tool produces an error-payload tool result and the loop
continues), so they do not appear in the control-flow embedding. -/

/-- The `i`-th model response, as consumed by the loop: a malformed response
without choices (thrown as fatal), a turn with a non-empty `tool_calls` list,
or a plain assistant text turn. -/
inductive ModelTurn where
  | invalidResponse
  | toolCalls
  | text (content : String)
deriving Repr, DecidableEq

/-- What the loop controller returns to the caller. -/
inductive LoopOutcome where
  | done (content : String)
  | invalidResponseError
  | maxIterationsError
deriving Repr, DecidableEq

/-- The `MAX_ITERATIONS = 10`. -/
def MAX_ITERATIONS : Nat := 10

/-- The `while (iterations < MAX_ITERATIONS)` loop, with the remaining
iteration budget as fuel; returns the outcome together with the number of
model calls made.  A tool-call turn and an empty-text turn (which pushes a
corrective user message) both `continue`; a non-empty text turn returns it;
running out of budget falls through to the
`Maximum iterations reached` throw. -/
def runChatLoop (turns : Nat → ModelTurn) : Nat → Nat → LoopOutcome × Nat
  | _, 0 => (.maxIterationsError, 0)
  | i, fuel + 1 =>
    match turns i with
    | .invalidResponse => (.invalidResponseError, 1)
    | .toolCalls =>
      let r := runChatLoop turns (i + 1) fuel
      (r.1, r.2 + 1)
    | .text content =>
      if content.trim = "" then
        let r := runChatLoop turns (i + 1) fuel
        (r.1, r.2 + 1)
      else (.done content, 1)

/-- The chat-stream `POST` handler's loop, started with the full budget. -/
def chatRoute (turns : Nat → ModelTurn) : LoopOutcome × Nat :=
  runChatLoop turns 0 MAX_ITERATIONS

/-- A model turn on which the loop `continue`s rather than returning. -/
def continuesLoop : ModelTurn → Bool
  | .invalidResponse => false
  | .toolCalls => true
  | .text content => content.trim == ""

/-! ## Concrete fixtures

Concrete data used to evaluate the embedded operations at specific inputs:
the catalog/product of the spec's worked scenario (`prod_1`, price 1000,
quantity 2) and the sessions it produces along the create → update →
complete flow. -/

/-- A one-product catalog: `prod_1` at price 1000 minor units. -/
def sampleProducts : List Product :=
  [{ id := "prod_1", name := "Sample Product", description := "A sample product",
     price := 1000, currency := "usd" }]

/-- Create request: `[{id: "prod_1", quantity: 2}]`. -/
def sampleCreateBody : CreateCheckoutRequest := { items := [⟨"prod_1", 2⟩] }

/-- A concrete fulfillment address. -/
def sampleAddress : FulfillmentAddress :=
  { name := "Jane Doe", line_one := "1 Main St", city := "Springfield",
    state := "CA", country := "US", postal_code := "90210" }

/-- Update request: set the address and the `standard` shipping option. -/
def sampleUpdateBody : UpdateCheckoutRequest :=
  { fulfillment_address := some sampleAddress,
    fulfillment_option_id := some "standard" }

/-- The line item the create route computes for `sampleCreateBody`. -/
def sampleLineItem : LineItem :=
  { id := "prod_1", item := ⟨"prod_1", 2⟩, base_amount := 2000, discount := 0,
    total := 2000, subtotal := 2000, tax := 0 }

/-- The session the create route returns for `sampleCreateBody`. -/
def sampleSession : CheckoutSession :=
  { id := "checkout_1", payment_provider := some ⟨"stripe", ["card"]⟩,
    status := .not_ready_for_payment, currency := DEFAULT_CURRENCY,
    line_items := [sampleLineItem], fulfillment_options := FULFILLMENT_OPTIONS,
    totals := [⟨"Subtotal", 2000⟩, ⟨"Shipping", 0⟩, ⟨"Tax", 0⟩, ⟨"Total", 2000⟩] }

/-- The `sampleSession` after the address/option update: `ready_for_payment`,
totals `{Subtotal: 2000, Shipping: 500, Tax: 175, Total: 2675}`. -/
def readySession : CheckoutSession := updateSession sampleSession sampleUpdateBody

/-- The `readySession` as stored after a successful completion. -/
def completedSession : CheckoutSession :=
  { readySession with status := CheckoutStatus.completed }

/-- A payment collaborator whose PaymentIntent always succeeds. -/
def paySucceeds : Int → String → String → PaymentOutcome :=
  fun _ _ _ => .intent "succeeded" "pi_1"

/-- A payment collaborator whose PaymentIntent is declined. -/
def payDeclined : Int → String → String → PaymentOutcome :=
  fun _ _ _ => .intent "requires_payment_method" "pi_2"

/-- A line item of subtotal 2, for the three-item rounding fixture. -/
def smallLineItem (pid : String) : LineItem :=
  { id := pid, item := ⟨pid, 1⟩, base_amount := 2, discount := 0,
    total := 2, subtotal := 2, tax := 0 }

/-- A session with three line items of subtotal 2 each and an address, so the
recomputed tax is `round(6 × 0.0875) = 1` and `taxPerItem = round(1/3) = 0`:
the last item absorbs the whole remainder `1`. -/
def threeItemSession : CheckoutSession :=
  { id := "checkout_3", payment_provider := some ⟨"stripe", ["card"]⟩,
    status := .not_ready_for_payment, currency := DEFAULT_CURRENCY,
    line_items := [smallLineItem "p1", smallLineItem "p2", smallLineItem "p3"],
    fulfillment_address := some sampleAddress,
    fulfillment_options := FULFILLMENT_OPTIONS,
    totals := [⟨"Subtotal", 6⟩, ⟨"Shipping", 0⟩, ⟨"Tax", 0⟩, ⟨"Total", 6⟩] }

/-- The empty update request. -/
def emptyUpdateBody : UpdateCheckoutRequest := {}

/-! ## Helper lemmas -/

theorem storeGet_storeSet_self (store : Store) (key : String) (v : CheckoutSession) :
    storeGet (storeSet store key v) key = some v := by
  simp [storeGet, storeSet]

theorem length_distributeTaxGo (n : Nat) (t p : Int) (i : Nat) (l : List LineItem) :
    (distributeTaxGo n t p i l).length = l.length := by
  induction l generalizing i with
  | nil => rfl
  | cons x xs ih => simp [distributeTaxGo, ih]

theorem map_subtotal_distributeTaxGo (n : Nat) (t p : Int) (i : Nat)
    (l : List LineItem) :
    (distributeTaxGo n t p i l).map (·.subtotal) = l.map (·.subtotal) := by
  induction l generalizing i with
  | nil => rfl
  | cons x xs ih => simp [distributeTaxGo, ih]

theorem getElem?_distributeTaxGo (n : Nat) (t p : Int) (i j : Nat)
    (l : List LineItem) :
    (distributeTaxGo n t p i l)[j]? = l[j]?.map (fun item =>
      { item with
        tax := if ((i + j : Nat) : Int) = (n : Int) - 1 then
            t - p * ((n : Int) - 1)
          else p
        total := item.subtotal + p }) := by
  induction l generalizing i j with
  | nil => simp [distributeTaxGo]
  | cons x xs ih =>
    cases j with
    | zero => simp [distributeTaxGo]
    | succ j =>
      have harith : i + (j + 1) = (i + 1) + j := by omega
      simp [distributeTaxGo, ih (i + 1) j, harith]

theorem sum_tax_distributeTaxGo (n : Nat) (t p : Int) :
    ∀ (l : List LineItem) (i : Nat), l ≠ [] → i + l.length = n →
      ((distributeTaxGo n t p i l).map (·.tax)).sum
        = p * ((l.length : Int) - 1) + (t - p * ((n : Int) - 1)) := by
  intro l
  induction l with
  | nil => intro i h; exact absurd rfl h
  | cons x xs ih =>
    intro i _ hlen
    rcases xs with _ | ⟨y, ys⟩
    · have hi : (i : Int) = (n : Int) - 1 := by
        simp at hlen; omega
      simp [distributeTaxGo, hi]
    · have hi : ¬ ((i : Int) = (n : Int) - 1) := by
        simp at hlen; omega
      have hrec := ih (i + 1) (by simp) (by simp at hlen ⊢; omega)
      rw [show distributeTaxGo n t p i (x :: y :: ys)
          = { x with
              tax := if (i : Int) = (n : Int) - 1 then
                  t - p * ((n : Int) - 1)
                else p
              total := x.subtotal + p } ::
            distributeTaxGo n t p (i + 1) (y :: ys) from rfl,
        List.map_cons, List.sum_cons, hrec]
      simp only [if_neg hi, List.length_cons]
      push_cast
      ring

theorem distributeTaxGo_distributeTaxGo (n : Nat) (t p : Int) (i : Nat)
    (l : List LineItem) :
    distributeTaxGo n t p i (distributeTaxGo n t p i l)
      = distributeTaxGo n t p i l := by
  induction l generalizing i with
  | nil => rfl
  | cons x xs ih => simp [distributeTaxGo, ih]

theorem length_distributeTax (items : List LineItem) (t : Int) :
    (distributeTax items t).length = items.length := by
  simp [distributeTax, length_distributeTaxGo]

theorem map_subtotal_distributeTax (items : List LineItem) (t : Int) :
    (distributeTax items t).map (·.subtotal) = items.map (·.subtotal) := by
  simp [distributeTax, map_subtotal_distributeTaxGo]

theorem distributeTax_distributeTax (items : List LineItem) (t : Int) :
    distributeTax (distributeTax items t) t = distributeTax items t := by
  unfold distributeTax
  rw [length_distributeTaxGo]
  exact distributeTaxGo_distributeTaxGo _ _ _ _ _

theorem sum_tax_distributeTax (items : List LineItem) (t : Int)
    (h : items ≠ []) :
    ((distributeTax items t).map (·.tax)).sum = t := by
  have hlen : (0 : Nat) + items.length = items.length := by omega
  rw [distributeTax, sum_tax_distributeTaxGo items.length t
    (jsRound t items.length) items 0 h hlen]
  ring

theorem applyUpdates_line_items (c : CheckoutSession) (b : UpdateCheckoutRequest) :
    (applyUpdates c b).line_items = c.line_items := by
  unfold applyUpdates
  cases b.buyer <;> cases b.fulfillment_address <;> dsimp <;> split <;> rfl

theorem applyUpdates_options (c : CheckoutSession) (b : UpdateCheckoutRequest) :
    (applyUpdates c b).fulfillment_options = c.fulfillment_options := by
  unfold applyUpdates
  cases b.buyer <;> cases b.fulfillment_address <;> dsimp <;> split <;> rfl

theorem applyUpdates_status (c : CheckoutSession) (b : UpdateCheckoutRequest) :
    (applyUpdates c b).status = c.status := by
  unfold applyUpdates
  cases b.buyer <;> cases b.fulfillment_address <;> dsimp <;> split <;> rfl

theorem applyUpdates_address (c : CheckoutSession) (b : UpdateCheckoutRequest) :
    (applyUpdates c b).fulfillment_address
      = if b.fulfillment_address.isSome then b.fulfillment_address
        else c.fulfillment_address := by
  unfold applyUpdates
  cases b.buyer <;> cases b.fulfillment_address <;> dsimp <;> split <;> rfl

theorem applyUpdates_option_id (c : CheckoutSession) (b : UpdateCheckoutRequest) :
    (applyUpdates c b).fulfillment_option_id
      = if truthyStr b.fulfillment_option_id then b.fulfillment_option_id
        else c.fulfillment_option_id := by
  unfold applyUpdates
  cases b.buyer <;> cases b.fulfillment_address <;> dsimp <;> split <;>
    simp_all

theorem updateSession_totals (c : CheckoutSession) (b : UpdateCheckoutRequest) :
    (updateSession c b).totals = recalculateTotals (applyUpdates c b) := by
  unfold updateSession
  dsimp
  split <;> rfl

theorem updateSession_line_items (c : CheckoutSession) (b : UpdateCheckoutRequest) :
    (updateSession c b).line_items
      = distributeTax (applyUpdates c b).line_items
          (totalsAmount (recalculateTotals (applyUpdates c b)) "Tax") := by
  unfold updateSession
  dsimp
  split <;> rfl

theorem updateSession_address (c : CheckoutSession) (b : UpdateCheckoutRequest) :
    (updateSession c b).fulfillment_address
      = (applyUpdates c b).fulfillment_address := by
  unfold updateSession
  dsimp
  split <;> rfl

theorem updateSession_option_id (c : CheckoutSession) (b : UpdateCheckoutRequest) :
    (updateSession c b).fulfillment_option_id
      = (applyUpdates c b).fulfillment_option_id := by
  unfold updateSession
  dsimp
  split <;> rfl

theorem updateSession_options (c : CheckoutSession) (b : UpdateCheckoutRequest) :
    (updateSession c b).fulfillment_options
      = c.fulfillment_options := by
  unfold updateSession
  dsimp
  split <;> simp [applyUpdates_options]

theorem updateSession_status (c : CheckoutSession) (b : UpdateCheckoutRequest) :
    (updateSession c b).status
      = if (applyUpdates c b).fulfillment_address.isSome
            && truthyStr (applyUpdates c b).fulfillment_option_id then
          CheckoutStatus.ready_for_payment
        else c.status := by
  unfold updateSession
  dsimp
  split <;> simp_all [applyUpdates_status]

/-- The `recalculateTotals` depends only on the line-item subtotals, the option
id, the shipping catalog, and the presence of an address. -/
theorem recalculateTotals_congr (c1 c2 : CheckoutSession)
    (hsub : c1.line_items.map (·.subtotal) = c2.line_items.map (·.subtotal))
    (hopt : c1.fulfillment_option_id = c2.fulfillment_option_id)
    (hopts : c1.fulfillment_options = c2.fulfillment_options)
    (haddr : c1.fulfillment_address.isSome = c2.fulfillment_address.isSome) :
    recalculateTotals c1 = recalculateTotals c2 := by
  have hfold : ∀ l : List LineItem,
      List.foldl (fun sum item => sum + item.subtotal) (0 : Int) l
        = List.foldl (· + ·) (0 : Int) (l.map (·.subtotal)) := by
    intro l
    rw [List.foldl_map]
  unfold recalculateTotals
  rw [hfold, hfold, hsub, hopt, hopts, haddr]

/-- The four labeled amounts produced by `recalculateTotals`, read back with
`totalsAmount`. -/
theorem totalsAmount_recalculateTotals_spec (c : CheckoutSession) :
    totalsAmount (recalculateTotals c) "Subtotal"
        = List.foldl (fun sum item => sum + item.subtotal) 0 c.line_items
      ∧ totalsAmount (recalculateTotals c) "Shipping"
        = (if truthyStr c.fulfillment_option_id then
            ((List.find? (fun opt => opt.id == c.fulfillment_option_id.getD "")
                c.fulfillment_options).map (·.amount)).getD 0
          else 0)
      ∧ totalsAmount (recalculateTotals c) "Tax"
        = (if c.fulfillment_address.isSome then
            calculateTax (List.foldl (fun sum item => sum + item.subtotal) 0 c.line_items)
          else 0)
      ∧ totalsAmount (recalculateTotals c) "Total"
        = totalsAmount (recalculateTotals c) "Subtotal"
          + totalsAmount (recalculateTotals c) "Shipping"
          + totalsAmount (recalculateTotals c) "Tax" := by
  refine ⟨rfl, rfl, rfl, rfl⟩

theorem totalsAmount_calculateTotals_spec (li : List LineItem) (s t : Int) :
    totalsAmount (calculateTotals li s t) "Subtotal"
        = List.foldl (fun sum item => sum + item.subtotal) 0 li
      ∧ totalsAmount (calculateTotals li s t) "Shipping" = s
      ∧ totalsAmount (calculateTotals li s t) "Tax" = t
      ∧ totalsAmount (calculateTotals li s t) "Total"
        = List.foldl (fun sum item => sum + item.subtotal) 0 li + s + t := by
  refine ⟨rfl, rfl, rfl, rfl⟩

/-- A Complete call with a truthy token on an existing session whose status
is not `ready_for_payment` fails with the invalid-state error naming the
missing preconditions. -/
theorem completeCheckout_not_ready (store : Store) (cid : String)
    (tok : Option String) (pay : Int → String → String → PaymentOutcome)
    (oid ts : String) (c : CheckoutSession)
    (htok : truthyStr tok = true) (hget : storeGet store cid = some c)
    (hstat : c.status ≠ .ready_for_payment) :
    completeCheckout store cid tok pay oid ts
      = .error (.invalidState c.status (missingItems c)) := by
  unfold completeCheckout
  rw [if_neg (by simp [htok]), hget]
  simp only []
  rw [if_neg hstat]

/-- Inversion of a successful Complete call: the session existed in
`ready_for_payment`, the stored/returned session is the original with status
`completed`, and the store was written exactly once at the session's key. -/
theorem completeCheckout_ok_inv (store : Store) (cid : String)
    (tok : Option String) (pay : Int → String → String → PaymentOutcome)
    (oid ts : String) (store' : Store) (c' : CheckoutSession) (ord : Order)
    (h : completeCheckout store cid tok pay oid ts = .ok (store', c', ord)) :
    ∃ c, storeGet store cid = some c ∧ c.status = .ready_for_payment
      ∧ c' = { c with status := CheckoutStatus.completed }
      ∧ store' = storeSet store cid c' := by
  unfold completeCheckout at h
  split at h
  · exact absurd h (by simp)
  · split at h
    · exact absurd h (by simp)
    · rename_i c hget
      split at h
      · split at h
        · exact absurd h (by simp)
        · split at h
          · exact absurd h (by simp)
          · split at h
            · exact absurd h (by simp)
            · split at h
              · simp only [Except.ok.injEq, Prod.mk.injEq] at h
                obtain ⟨hst, hc, -⟩ := h
                refine ⟨c, hget, by assumption, hc.symm, ?_⟩
                rw [← hst, hc]
              · exact absurd h (by simp)
      · exact absurd h (by simp)

/-- If some requested item's product id is absent from the catalog,
`calculateLineItems` throws `Product not found`. -/
theorem calculateLineItems_error_of_missing (products : List Product) :
    ∀ items : List CartItem,
      (∃ it ∈ items, List.find? (fun p => p.id == it.id) products = none) →
      ∃ pid, calculateLineItems products items = .error (.productNotFound pid) := by
  intro items
  induction items with
  | nil => rintro ⟨it, hmem, -⟩; exact absurd hmem (by simp)
  | cons item rest ih =>
    rintro ⟨it, hmem, hnone⟩
    unfold calculateLineItems
    cases hfind : List.find? (fun p => p.id == item.id) products with
    | none => exact ⟨item.id, rfl⟩
    | some product =>
      rcases List.mem_cons.mp hmem with heq | hrest
      · subst heq
        rw [hfind] at hnone
        exact absurd hnone (by simp)
      · obtain ⟨pid, herr⟩ := ih ⟨it, hrest, hnone⟩
        rw [herr]
        exact ⟨pid, rfl⟩

/-- If every requested item's product id is in the catalog,
`calculateLineItems` succeeds. -/
theorem calculateLineItems_ok_of_present (products : List Product) :
    ∀ items : List CartItem,
      (∀ it ∈ items, (List.find? (fun p => p.id == it.id) products).isSome) →
      ∃ lis, calculateLineItems products items = .ok lis := by
  intro items
  induction items with
  | nil => intro; exact ⟨[], rfl⟩
  | cons item rest ih =>
    intro hall
    unfold calculateLineItems
    cases hfind : List.find? (fun p => p.id == item.id) products with
    | none =>
      have := hall item (by simp)
      rw [hfind] at this
      exact absurd this (by simp)
    | some product =>
      obtain ⟨lis, hok⟩ := ih (fun it hit => hall it (by simp [hit]))
      rw [hok]
      exact ⟨_, rfl⟩

/-- The loop makes at most `fuel` model calls. -/
theorem runChatLoop_calls_le (turns : Nat → ModelTurn) :
    ∀ (fuel i : Nat), (runChatLoop turns i fuel).2 ≤ fuel := by
  intro fuel
  induction fuel with
  | zero => intro i; simp [runChatLoop]
  | succ fuel ih =>
    intro i
    unfold runChatLoop
    cases turns i with
    | invalidResponse => simp
    | toolCalls => simpa using Nat.succ_le_succ (ih (i + 1))
    | text content =>
      dsimp only
      split
      · simpa using Nat.succ_le_succ (ih (i + 1))
      · simp

/-- If every turn within the budget is a continuation turn, the loop falls
through to the `Maximum iterations reached` failure. -/
theorem runChatLoop_exhaust (turns : Nat → ModelTurn) :
    ∀ (fuel i : Nat),
      (∀ j, j < fuel → continuesLoop (turns (i + j)) = true) →
      (runChatLoop turns i fuel).1 = .maxIterationsError := by
  intro fuel
  induction fuel with
  | zero => intro i _; rfl
  | succ fuel ih =>
    intro i h
    have h0 := h 0 (Nat.succ_pos fuel)
    rw [Nat.add_zero] at h0
    have hrest : ∀ j, j < fuel → continuesLoop (turns (i + 1 + j)) = true := by
      intro j hj
      have := h (j + 1) (by omega)
      simpa [Nat.add_assoc, Nat.add_comm 1 j] using this
    unfold runChatLoop
    cases hturn : turns i with
    | invalidResponse => rw [hturn] at h0; simp [continuesLoop] at h0
    | toolCalls => simpa using ih (i + 1) hrest
    | text content =>
      rw [hturn] at h0
      simp only [continuesLoop, beq_iff_eq] at h0
      simp only [h0, if_pos rfl]
      simpa using ih (i + 1) hrest

/-! ## Claim theorems -/

/-- C3: for every session returned by Create or Update, the `Total` entry of
`totals` equals the sum of the `Subtotal`, `Shipping` and `Tax` entries, in
exact integer arithmetic in minor currency units. -/
theorem C3_totals_consistent :
    (∀ (products : List Product) (store : Store) (body : CreateCheckoutRequest)
        (newId : String) (store' : Store) (sess : CheckoutSession),
      createCheckout products store body newId = .ok (store', sess) →
      totalsAmount sess.totals "Total"
        = totalsAmount sess.totals "Subtotal" + totalsAmount sess.totals "Shipping"
          + totalsAmount sess.totals "Tax")
    ∧ (∀ (store : Store) (cid : String) (body : UpdateCheckoutRequest)
        (store' : Store) (sess : CheckoutSession),
      updateRoute store cid body = .ok (store', sess) →
      totalsAmount sess.totals "Total"
        = totalsAmount sess.totals "Subtotal" + totalsAmount sess.totals "Shipping"
          + totalsAmount sess.totals "Tax") := by
  constructor
  · intro products store body newId store' sess h
    unfold createCheckout at h
    split at h
    · exact absurd h (by simp)
    · split at h
      · exact absurd h (by simp)
      · simp only [Except.ok.injEq, Prod.mk.injEq] at h
        obtain ⟨-, hsess⟩ := h
        subst hsess
        rfl
  · intro store cid body store' sess h
    unfold updateRoute at h
    split at h
    · exact absurd h (by simp)
    · simp only [Except.ok.injEq, Prod.mk.injEq] at h
      obtain ⟨-, hsess⟩ := h
      subst hsess
      rw [updateSession_totals]
      exact (totalsAmount_recalculateTotals_spec _).2.2.2

/-- Witness for C3 at a concrete Update on the sample session. -/
theorem C3_totals_consistent_witness :
    totalsAmount readySession.totals "Total"
      = totalsAmount readySession.totals "Subtotal"
        + totalsAmount readySession.totals "Shipping"
        + totalsAmount readySession.totals "Tax" :=
  C3_totals_consistent.2 [("checkout_1", sampleSession)] "checkout_1"
    sampleUpdateBody
    (storeSet [("checkout_1", sampleSession)] "checkout_1" readySession)
    readySession rfl

/-- C5: after every Update on a session with at least one line item, the
per-line-item tax fields sum exactly to the session's `Tax` total, and the
last item holds the rounding remainder
`Tax - round(Tax / N) * (N - 1)`. -/
theorem C5_tax_allocation :
    ∀ (c : CheckoutSession) (b : UpdateCheckoutRequest),
      1 ≤ c.line_items.length →
      (((updateSession c b).line_items.map (·.tax)).sum
          = totalsAmount (updateSession c b).totals "Tax")
      ∧ ((updateSession c b).line_items[c.line_items.length - 1]?.map (·.tax)
          = some (totalsAmount (updateSession c b).totals "Tax"
              - jsRound (totalsAmount (updateSession c b).totals "Tax")
                  c.line_items.length
                * ((c.line_items.length : Int) - 1))) := by
  intro c b h
  have hL : (applyUpdates c b).line_items = c.line_items := applyUpdates_line_items c b
  have hne : (applyUpdates c b).line_items ≠ [] := by
    rw [hL]
    intro he
    rw [he] at h
    exact absurd h (by simp)
  constructor
  · rw [updateSession_line_items, updateSession_totals,
      sum_tax_distributeTax _ _ hne]
  · rw [updateSession_line_items, updateSession_totals, distributeTax, hL,
      getElem?_distributeTaxGo,
      List.getElem?_eq_getElem (show c.line_items.length - 1 < c.line_items.length by omega)]
    simp [show ((c.line_items.length - 1 : Nat) : Int)
      = (c.line_items.length : Int) - 1 by omega]

/-- Witness for C5 at the three-item rounding fixture. -/
theorem C5_tax_allocation_witness :
    (((updateSession threeItemSession emptyUpdateBody).line_items.map (·.tax)).sum
        = totalsAmount (updateSession threeItemSession emptyUpdateBody).totals "Tax")
    ∧ ((updateSession threeItemSession emptyUpdateBody).line_items[threeItemSession.line_items.length - 1]?.map (·.tax)
        = some (totalsAmount (updateSession threeItemSession emptyUpdateBody).totals "Tax"
            - jsRound (totalsAmount (updateSession threeItemSession emptyUpdateBody).totals "Tax")
                threeItemSession.line_items.length
              * ((threeItemSession.line_items.length : Int) - 1))) :=
  C5_tax_allocation threeItemSession emptyUpdateBody (by decide)

/-- C10: after every Update on a session with at least one line item, every
line item's `total` — the last one included — equals its `subtotal` plus
`round(Tax / N)`; at the three-item fixture the last item's `total`
consequently differs from its `subtotal + tax`, since the remainder assigned
there differs from `round(Tax / N)`. -/
theorem C10_uniform_item_total :
    (∀ (c : CheckoutSession) (b : UpdateCheckoutRequest),
      1 ≤ c.line_items.length →
      ∀ (i : Nat) (item : LineItem),
        (updateSession c b).line_items[i]? = some item →
        item.total = item.subtotal
          + jsRound (totalsAmount (updateSession c b).totals "Tax")
              c.line_items.length)
    ∧ ((updateSession threeItemSession emptyUpdateBody).line_items[2]?.map (·.total)
        ≠ (updateSession threeItemSession emptyUpdateBody).line_items[2]?.map
            (fun item => item.subtotal + item.tax)) := by
  constructor
  · intro c b _ i item hitem
    rw [updateSession_line_items, distributeTax, applyUpdates_line_items,
      getElem?_distributeTaxGo] at hitem
    cases horig : c.line_items[i]? with
    | none => rw [horig] at hitem; exact absurd hitem (by simp)
    | some orig =>
      rw [horig] at hitem
      simp only [Option.map_some', Option.some.injEq] at hitem
      subst hitem
      rw [updateSession_totals]
  · decide

/-- C7: Update is idempotent under repeated identical input — applying the
same request twice in a row yields the same totals, line items and status as
applying it once. -/
theorem C7_update_idempotent :
    ∀ (c : CheckoutSession) (b : UpdateCheckoutRequest),
      (updateSession (updateSession c b) b).totals = (updateSession c b).totals
      ∧ (updateSession (updateSession c b) b).line_items
          = (updateSession c b).line_items
      ∧ (updateSession (updateSession c b) b).status
          = (updateSession c b).status := by
  intro c b
  have haddr : (applyUpdates (updateSession c b) b).fulfillment_address
      = (applyUpdates c b).fulfillment_address := by
    rw [applyUpdates_address, applyUpdates_address, updateSession_address,
      applyUpdates_address]
    split <;> rfl
  have hoptid : (applyUpdates (updateSession c b) b).fulfillment_option_id
      = (applyUpdates c b).fulfillment_option_id := by
    rw [applyUpdates_option_id, applyUpdates_option_id, updateSession_option_id,
      applyUpdates_option_id]
    split <;> rfl
  have hopts : (applyUpdates (updateSession c b) b).fulfillment_options
      = (applyUpdates c b).fulfillment_options := by
    rw [applyUpdates_options, applyUpdates_options, updateSession_options]
  have hitems : (applyUpdates (updateSession c b) b).line_items
      = distributeTax (applyUpdates c b).line_items
          (totalsAmount (recalculateTotals (applyUpdates c b)) "Tax") := by
    rw [applyUpdates_line_items, updateSession_line_items]
  have hsub : (applyUpdates (updateSession c b) b).line_items.map (·.subtotal)
      = (applyUpdates c b).line_items.map (·.subtotal) := by
    rw [hitems, map_subtotal_distributeTax]
  have htot : recalculateTotals (applyUpdates (updateSession c b) b)
      = recalculateTotals (applyUpdates c b) :=
    recalculateTotals_congr _ _ hsub hoptid hopts (by rw [haddr])
  refine ⟨?_, ?_, ?_⟩
  · rw [updateSession_totals (updateSession c b) b, htot, updateSession_totals]
  · rw [updateSession_line_items (updateSession c b) b, hitems, htot,
      distributeTax_distributeTax, updateSession_line_items]
  · rw [updateSession_status (updateSession c b) b, haddr, hoptid]
    split
    · rw [updateSession_status c b, if_pos (by assumption)]
    · rfl

/-- Witness for C7 at the sample session and update request. -/
theorem C7_update_idempotent_witness :
    (updateSession (updateSession sampleSession sampleUpdateBody) sampleUpdateBody).totals
        = (updateSession sampleSession sampleUpdateBody).totals
      ∧ (updateSession (updateSession sampleSession sampleUpdateBody) sampleUpdateBody).line_items
        = (updateSession sampleSession sampleUpdateBody).line_items
      ∧ (updateSession (updateSession sampleSession sampleUpdateBody) sampleUpdateBody).status
        = (updateSession sampleSession sampleUpdateBody).status :=
  C7_update_idempotent sampleSession sampleUpdateBody

/-- C8 counterexample: an Update carrying `fulfillment_option_id: ""` — a
string matching no entry of the session's shipping catalog — succeeds, yet
the recomputed `Shipping` amount is the previously selected option's 500,
not zero: the empty string is falsy in JS, so the route treats the field as
absent and leaves the prior selection in effect. -/
theorem C8_counterexample :
    (UpdateCheckoutRequest.mk none none (some "")).fulfillment_option_id = some ""
    ∧ readySession.fulfillment_options.all (fun opt => opt.id != "") = true
    ∧ (updateRoute [("checkout_1", readySession)] "checkout_1"
        (UpdateCheckoutRequest.mk none none (some ""))).isOk = true
    ∧ totalsAmount
        (updateSession readySession (UpdateCheckoutRequest.mk none none (some ""))).totals
        "Shipping" = 500 := by
  refine ⟨rfl, by decide, rfl, by decide⟩

/-- C8 amended: an Update whose `fulfillment_option_id` is a non-empty
string matching no entry of the session's shipping catalog succeeds (it is
not rejected) and the recomputed `Shipping` amount is zero; an empty-string
id is treated as absent, leaving the session's previous option id (and its
shipping amount) in effect. -/
theorem C8_unknown_option_zero_shipping :
    (∀ (store : Store) (cid : String) (b : UpdateCheckoutRequest)
        (c : CheckoutSession) (oid : String),
      storeGet store cid = some c →
      b.fulfillment_option_id = some oid → oid ≠ "" →
      (∀ opt ∈ c.fulfillment_options, opt.id ≠ oid) →
      updateRoute store cid b
          = .ok (storeSet store cid (updateSession c b), updateSession c b)
        ∧ totalsAmount (updateSession c b).totals "Shipping" = 0)
    ∧ (∀ (c : CheckoutSession) (b : UpdateCheckoutRequest),
      b.fulfillment_option_id = some "" →
      (updateSession c b).fulfillment_option_id = c.fulfillment_option_id) := by
  constructor
  · intro store cid b c oid hget hb hne hnomatch
    constructor
    · unfold updateRoute
      rw [hget]
    · have htruthy : truthyStr b.fulfillment_option_id = true := by
        rw [hb]
        simpa [truthyStr] using hne
      have hopt : (applyUpdates c b).fulfillment_option_id = some oid := by
        rw [applyUpdates_option_id, if_pos htruthy, hb]
      have hfind : List.find?
          (fun opt => opt.id == (applyUpdates c b).fulfillment_option_id.getD "")
          (applyUpdates c b).fulfillment_options = none := by
        rw [hopt, applyUpdates_options]
        refine List.find?_eq_none.mpr ?_
        intro opt hmem
        simpa using hnomatch opt hmem
      rw [updateSession_totals, (totalsAmount_recalculateTotals_spec _).2.1,
        if_pos (by rw [hopt]; simpa [truthyStr] using hne), hfind]
      rfl
  · intro c b hb
    rw [updateSession_option_id, applyUpdates_option_id, hb]
    rfl

/-- Witness for the amended C8: an Update selecting the unknown id
`"mystery"` on the ready session succeeds with `Shipping` zero. -/
theorem C8_unknown_option_zero_shipping_witness :
    updateRoute [("checkout_1", readySession)] "checkout_1"
        (UpdateCheckoutRequest.mk none none (some "mystery"))
        = .ok (storeSet [("checkout_1", readySession)] "checkout_1"
            (updateSession readySession (UpdateCheckoutRequest.mk none none (some "mystery"))),
          updateSession readySession (UpdateCheckoutRequest.mk none none (some "mystery")))
      ∧ totalsAmount
          (updateSession readySession (UpdateCheckoutRequest.mk none none (some "mystery"))).totals
          "Shipping" = 0 :=
  C8_unknown_option_zero_shipping.1 [("checkout_1", readySession)] "checkout_1"
    (UpdateCheckoutRequest.mk none none (some "mystery")) readySession "mystery"
    rfl rfl (by decide) (by decide)

/-- C6: Create with a non-empty item list containing a product id absent
from the catalog fails with `Product not found` (and, the handler having
thrown before the store write, creates no session); with all ids present it
returns and persists a new session in status `not_ready_for_payment` whose
totals carry zero shipping and zero tax. -/
theorem C6_create_not_found_or_persisted :
    (∀ (products : List Product) (store : Store) (body : CreateCheckoutRequest)
        (newId : String),
      body.items ≠ [] →
      (∃ it ∈ body.items, ∀ p ∈ products, p.id ≠ it.id) →
      ∃ pid, createCheckout products store body newId
          = .error (.productNotFound pid))
    ∧ (∀ (products : List Product) (store : Store) (body : CreateCheckoutRequest)
        (newId : String),
      body.items ≠ [] →
      (∀ it ∈ body.items, ∃ p ∈ products, p.id = it.id) →
      ∃ sess, createCheckout products store body newId
          = .ok (storeSet store newId sess, sess)
        ∧ sess.status = .not_ready_for_payment
        ∧ totalsAmount sess.totals "Shipping" = 0
        ∧ totalsAmount sess.totals "Tax" = 0
        ∧ storeGet (storeSet store newId sess) newId = some sess) := by
  constructor
  · intro products store body newId hnonempty hmissing
    have hmissing' : ∃ it ∈ body.items,
        List.find? (fun p => p.id == it.id) products = none := by
      obtain ⟨it, hmem, hall⟩ := hmissing
      refine ⟨it, hmem, List.find?_eq_none.mpr ?_⟩
      intro p hp
      simpa using hall p hp
    obtain ⟨pid, herr⟩ := calculateLineItems_error_of_missing products body.items hmissing'
    refine ⟨pid, ?_⟩
    unfold createCheckout
    rw [if_neg (by simpa [List.isEmpty_iff] using hnonempty), herr]
  · intro products store body newId hnonempty hpresent
    have hpresent' : ∀ it ∈ body.items,
        (List.find? (fun p => p.id == it.id) products).isSome := by
      intro it hmem
      obtain ⟨p, hp, hpid⟩ := hpresent it hmem
      exact List.find?_isSome.mpr ⟨p, hp, by simpa using hpid⟩
    obtain ⟨lis, hok⟩ := calculateLineItems_ok_of_present products body.items hpresent'
    have key : ∃ sess, createCheckout products store body newId
          = .ok (storeSet store newId sess, sess)
        ∧ sess.status = .not_ready_for_payment
        ∧ totalsAmount sess.totals "Shipping" = 0
        ∧ totalsAmount sess.totals "Tax" = 0 := by
      unfold createCheckout
      rw [if_neg (by simpa [List.isEmpty_iff] using hnonempty), hok]
      exact ⟨_, rfl, rfl, rfl, rfl⟩
    obtain ⟨sess, h1, h2, h3, h4⟩ := key
    exact ⟨sess, h1, h2, h3, h4, storeGet_storeSet_self _ _ _⟩

/-- Witness for C6: an unknown product id fails, the sample request is
created and persisted. -/
theorem C6_create_witness :
    (∃ pid, createCheckout sampleProducts [] { items := [⟨"prod_missing", 1⟩] }
        "checkout_x" = .error (.productNotFound pid))
    ∧ (∃ sess, createCheckout sampleProducts [] sampleCreateBody "checkout_1"
        = .ok (storeSet [] "checkout_1" sess, sess)
      ∧ sess.status = .not_ready_for_payment
      ∧ totalsAmount sess.totals "Shipping" = 0
      ∧ totalsAmount sess.totals "Tax" = 0
      ∧ storeGet (storeSet [] "checkout_1" sess) "checkout_1" = some sess) :=
  ⟨C6_create_not_found_or_persisted.1 sampleProducts [] { items := [⟨"prod_missing", 1⟩] }
      "checkout_x" (by decide) ⟨⟨"prod_missing", 1⟩, by decide, by decide⟩,
    C6_create_not_found_or_persisted.2 sampleProducts [] sampleCreateBody
      "checkout_1" (by decide) (by decide)⟩

/-- C2: a Complete call (carrying its payment token) on an existing session
not exactly in `ready_for_payment` fails with the invalid-state error naming
the missing preconditions (address and/or shipping option); in particular a
second Complete on a just-completed session fails with the invalid-state
error and returns no second Order. -/
theorem C2_complete_invalid_state :
    (∀ (store : Store) (cid : String) (tok : Option String)
        (pay : Int → String → String → PaymentOutcome) (oid ts : String)
        (c : CheckoutSession),
      truthyStr tok = true → storeGet store cid = some c →
      c.status ≠ .ready_for_payment →
      completeCheckout store cid tok pay oid ts
        = .error (.invalidState c.status (missingItems c)))
    ∧ (∀ (store : Store) (cid : String) (tok : Option String)
        (pay : Int → String → String → PaymentOutcome) (oid ts : String)
        (store' : Store) (c' : CheckoutSession) (ord : Order)
        (tok2 : Option String) (pay2 : Int → String → String → PaymentOutcome)
        (oid2 ts2 : String),
      truthyStr tok2 = true →
      completeCheckout store cid tok pay oid ts = .ok (store', c', ord) →
      completeCheckout store' cid tok2 pay2 oid2 ts2
        = .error (.invalidState .completed (missingItems c'))) := by
  constructor
  · exact completeCheckout_not_ready
  · intro store cid tok pay oid ts store' c' ord tok2 pay2 oid2 ts2 htok2 h
    obtain ⟨c, -, -, hc', hstore'⟩ :=
      completeCheckout_ok_inv store cid tok pay oid ts store' c' ord h
    have hstat : c'.status = CheckoutStatus.completed := by rw [hc']
    have := completeCheckout_not_ready store' cid tok2 pay2 oid2 ts2 c' htok2
      (by rw [hstore']; exact storeGet_storeSet_self _ _ _)
      (by rw [hstat]; intro hcon; exact absurd hcon (by decide))
    rw [hstat] at this
    exact this

/-- Witness for C2: a Complete on the freshly created (not-ready) sample
session fails naming both missing preconditions, and a second Complete after
a successful one fails with the completed invalid-state error. -/
theorem C2_complete_invalid_state_witness :
    completeCheckout [("checkout_1", sampleSession)] "checkout_1"
        (some "spt_1") paySucceeds "order_1" "t0"
      = .error (.invalidState .not_ready_for_payment
          ["shipping address", "shipping option"])
    ∧ completeCheckout
        (storeSet [("checkout_1", readySession)] "checkout_1" completedSession)
        "checkout_1" (some "spt_2") paySucceeds "order_2" "t1"
      = .error (.invalidState .completed (missingItems completedSession)) :=
  ⟨C2_complete_invalid_state.1 [("checkout_1", sampleSession)] "checkout_1"
      (some "spt_1") paySucceeds "order_1" "t0" sampleSession rfl rfl (by decide),
    C2_complete_invalid_state.2 [("checkout_1", readySession)] "checkout_1"
      (some "spt_1") paySucceeds "order_1" "t0"
      (storeSet [("checkout_1", readySession)] "checkout_1" completedSession)
      completedSession
      (createOrder "checkout_1" "pi_1" 2675 "usd" "order_1" "t0")
      (some "spt_2") paySucceeds "order_2" "t1" rfl rfl⟩

/-- C1 counterexample: a confirmed currency (`"eur"`) different from the
session's currency (`"usd"`) produces no `CurrencyMismatch` failure
anywhere: the SharedPaymentToken is issued for the mismatched currency and
the Complete call succeeds. -/
theorem C1_counterexample :
    "eur" ≠ readySession.currency
    ∧ createSPT [("checkout_1", readySession)]
        { payment_method_id := some "pm_1", checkout_id := some "checkout_1",
          amount := some 2675, currency := some "eur" } (.issued "spt_1")
        = .ok "spt_1"
    ∧ (completeCheckout [("checkout_1", readySession)] "checkout_1"
        (some "spt_1") paySucceeds "order_1" "t0").isOk = true := by
  refine ⟨by decide, rfl, rfl⟩

/-- C1 amended: Complete on an existing `ready_for_payment` session charges
the session's `totals.Total` in the session's currency via the payment
collaborator and fails — leaving the session unchanged — whenever the
returned payment status is not `succeeded`; the confirmed-amount equality
check against `totals.Total` is enforced at SharedPaymentToken creation,
failing there with the amount-mismatch error; no check compares a confirmed
currency with the session's currency. -/
theorem C1_payment_validation :
    (∀ (store : Store) (cid : String) (tok : Option String)
        (pay : Int → String → String → PaymentOutcome) (oid ts : String)
        (c : CheckoutSession) (total : Int) (piStatus piId : String),
      truthyStr tok = true → storeGet store cid = some c →
      c.status = .ready_for_payment →
      (List.find? (fun t => t.label == "Total") c.totals).map (·.amount)
        = some total →
      total ≠ 0 →
      pay total c.currency (tok.getD "") = .intent piStatus piId →
      piStatus ≠ "succeeded" →
      completeCheckout store cid tok pay oid ts
        = .error (.paymentFailed piStatus))
    ∧ (∀ (store : Store) (body : CreateSPTRequest) (spt : SPTOutcome)
        (c : CheckoutSession) (amount : Int),
      truthyStr body.payment_method_id = true →
      truthyStr body.checkout_id = true →
      body.amount = some amount → 0 < amount →
      truthyStr body.currency = true →
      storeGet store (body.checkout_id.getD "") = some c →
      (List.find? (fun t => t.label == "Total") c.totals).map (·.amount)
        ≠ some amount →
      createSPT store body spt
        = .error (.amountMismatch
            ((List.find? (fun t => t.label == "Total") c.totals).map (·.amount))
            amount)) := by
  constructor
  · intro store cid tok pay oid ts c total piStatus piId htok hget hstat htotal
      hnz hpay hfail
    unfold completeCheckout
    rw [if_neg (by simp [htok]), hget]
    simp only []
    rw [if_pos hstat, htotal]
    simp only []
    rw [if_neg hnz, hpay]
    simp only []
    rw [if_neg hfail]
  · intro store body spt c amount hpm hcid hamount hpos hcur hget hmismatch
    unfold createSPT
    rw [if_neg (by simp [hpm]), if_neg (by simp [hcid]), hamount]
    simp only []
    rw [if_neg (by omega), if_neg (by simp [hcur]), hget]
    simp only []
    rw [if_pos hmismatch]

/-- Witness for the amended C1: a declined payment fails Complete on the
ready sample session, and an SPT request confirming 2674 against the
session total 2675 fails with the amount mismatch. -/
theorem C1_payment_validation_witness :
    completeCheckout [("checkout_1", readySession)] "checkout_1"
        (some "spt_1") payDeclined "order_1" "t0"
      = .error (.paymentFailed "requires_payment_method")
    ∧ createSPT [("checkout_1", readySession)]
        { payment_method_id := some "pm_1", checkout_id := some "checkout_1",
          amount := some 2674, currency := some "usd" } (.issued "spt_1")
      = .error (.amountMismatch
          ((List.find? (fun t => t.label == "Total") readySession.totals).map (·.amount))
          2674) :=
  ⟨C1_payment_validation.1 [("checkout_1", readySession)] "checkout_1"
      (some "spt_1") payDeclined "order_1" "t0" readySession 2675
      "requires_payment_method" "pi_2" rfl rfl (by decide) (by decide)
      (by decide) rfl (by decide),
    C1_payment_validation.2 [("checkout_1", readySession)]
      { payment_method_id := some "pm_1", checkout_id := some "checkout_1",
        amount := some 2674, currency := some "usd" } (.issued "spt_1")
      readySession 2674 rfl rfl rfl (by decide) rfl rfl (by decide)⟩

/-- C4 counterexample: Update does not guard completed sessions — an empty
Update on a completed session is accepted, mutates the session, and
regresses its status from `completed` back to `ready_for_payment`. -/
theorem C4_counterexample :
    completedSession.status = CheckoutStatus.completed
    ∧ (updateRoute [("checkout_1", completedSession)] "checkout_1"
        emptyUpdateBody).isOk = true
    ∧ (updateSession completedSession emptyUpdateBody).status
        = CheckoutStatus.ready_for_payment
    ∧ updateSession completedSession emptyUpdateBody ≠ completedSession := by
  refine ⟨rfl, rfl, by decide, by decide⟩

/-- C4 amended: Create always returns `not_ready_for_payment`; Update sets
the status to `ready_for_payment` exactly when the merged session has both a
fulfillment address and a truthy fulfillment option id, and otherwise leaves
the status unchanged; Complete moves a session from exactly
`ready_for_payment` to `completed`.  However Update does not guard completed
sessions: on a completed session (which has both fields set) it regresses
the status to `ready_for_payment` and mutates the record, so the forward-only
/ completed-immutability claim fails there. -/
theorem C4_forward_transitions :
    (∀ (products : List Product) (store : Store) (body : CreateCheckoutRequest)
        (newId : String) (store' : Store) (sess : CheckoutSession),
      createCheckout products store body newId = .ok (store', sess) →
      sess.status = .not_ready_for_payment)
    ∧ (∀ (c : CheckoutSession) (b : UpdateCheckoutRequest),
      (updateSession c b).status
        = (if (applyUpdates c b).fulfillment_address.isSome
              && truthyStr (applyUpdates c b).fulfillment_option_id then
            CheckoutStatus.ready_for_payment
          else c.status))
    ∧ (∀ (store : Store) (cid : String) (tok : Option String)
        (pay : Int → String → String → PaymentOutcome) (oid ts : String)
        (store' : Store) (c' : CheckoutSession) (ord : Order),
      completeCheckout store cid tok pay oid ts = .ok (store', c', ord) →
      ∃ c, storeGet store cid = some c ∧ c.status = .ready_for_payment
        ∧ c' = { c with status := CheckoutStatus.completed }
        ∧ store' = storeSet store cid c') := by
  refine ⟨?_, updateSession_status, completeCheckout_ok_inv⟩
  intro products store body newId store' sess h
  unfold createCheckout at h
  split at h
  · exact absurd h (by simp)
  · split at h
    · exact absurd h (by simp)
    · simp only [Except.ok.injEq, Prod.mk.injEq] at h
      obtain ⟨-, hsess⟩ := h
      subst hsess
      rfl

/-- Witness for the amended C4 across the concrete create → update →
complete flow. -/
theorem C4_forward_transitions_witness :
    sampleSession.status = CheckoutStatus.not_ready_for_payment
    ∧ (updateSession sampleSession sampleUpdateBody).status
        = (if (applyUpdates sampleSession sampleUpdateBody).fulfillment_address.isSome
              && truthyStr (applyUpdates sampleSession sampleUpdateBody).fulfillment_option_id then
            CheckoutStatus.ready_for_payment
          else sampleSession.status)
    ∧ (∃ c, storeGet [("checkout_1", readySession)] "checkout_1" = some c
        ∧ c.status = .ready_for_payment
        ∧ completedSession = { c with status := CheckoutStatus.completed }
        ∧ storeSet [("checkout_1", readySession)] "checkout_1" completedSession
          = storeSet [("checkout_1", readySession)] "checkout_1" completedSession) := by
  refine ⟨?_, C4_forward_transitions.2.1 sampleSession sampleUpdateBody, ?_⟩
  · exact C4_forward_transitions.1 sampleProducts [] sampleCreateBody "checkout_1"
      (storeSet [] "checkout_1" sampleSession) sampleSession rfl
  · obtain ⟨c, h1, h2, h3, h4⟩ := C4_forward_transitions.2.2
      [("checkout_1", readySession)] "checkout_1" (some "spt_1") paySucceeds
      "order_1" "t0"
      (storeSet [("checkout_1", readySession)] "checkout_1" completedSession)
      completedSession (createOrder "checkout_1" "pi_1" 2675 "usd" "order_1" "t0")
      rfl
    exact ⟨c, h1, h2, h3, rfl⟩

/-- C9: the agentic loop controller makes at most `MAX_ITERATIONS = 10`
model calls; if every turn within the budget is a continuation (tool calls
or an empty text), it fails with the `Maximum iterations reached` error
surfaced to the caller rather than returning truncated content. -/
theorem C9_loop_bound :
    (∀ turns : Nat → ModelTurn, (chatRoute turns).2 ≤ MAX_ITERATIONS)
    ∧ (∀ turns : Nat → ModelTurn,
      (∀ j, j < MAX_ITERATIONS → continuesLoop (turns j) = true) →
      (chatRoute turns).1 = .maxIterationsError) := by
  constructor
  · intro turns
    exact runChatLoop_calls_le turns MAX_ITERATIONS 0
  · intro turns h
    refine runChatLoop_exhaust turns MAX_ITERATIONS 0 ?_
    intro j hj
    simpa using h j hj

/-- Witness for C9: a model that always requests tools hits the cap after
exactly the error outcome, within the 10-call budget. -/
theorem C9_loop_bound_witness :
    (chatRoute (fun _ => ModelTurn.toolCalls)).2 ≤ MAX_ITERATIONS
    ∧ (chatRoute (fun _ => ModelTurn.toolCalls)).1 = .maxIterationsError :=
  ⟨C9_loop_bound.1 (fun _ => ModelTurn.toolCalls),
    C9_loop_bound.2 (fun _ => ModelTurn.toolCalls) (by decide)⟩

/-- Witness for C10 at the three-item fixture, first line item. -/
theorem C10_uniform_item_total_witness :
    (smallLineItem "p1").total
      = (smallLineItem "p1").subtotal
        + jsRound (totalsAmount (updateSession threeItemSession emptyUpdateBody).totals "Tax")
            threeItemSession.line_items.length :=
  C10_uniform_item_total.1 threeItemSession emptyUpdateBody (by decide) 0
    (smallLineItem "p1") (by decide)

end ACP
